import Mathlib

/-!
Shallow embedding of the configuration resolution engine of
`cargo-generate-rpm` (`src/config.rs`, `src/error.rs`).

The manifest tree is the generic TOML value tree (String, Integer, Boolean,
Array, Table); tables are ordered key/value association lists with lookup by
first exact key match, matching `toml::map::Map::get` and the linear
`iter().find` scan used in `Config::metadata`.
-/

namespace CargoGenerateRpm

/-- The generic parsed manifest tree value (`toml::Value` as consumed by
`config.rs`): strings, integers, booleans, arrays and tables. -/
inductive Value where
  | str : String → Value
  | int : Int → Value
  | boolean : Bool → Value
  | arr : List Value → Value
  | table : List (String × Value) → Value

/-- `ConfigTable` from `config.rs`: an ordered map from string keys to values. -/
abbrev ConfigTable := List (String × Value)

/-- `Value::as_str`. -/
def Value.as_str : Value → Option String
  | .str s => some s
  | _ => none

/-- `Value::as_integer`. -/
def Value.as_integer : Value → Option Int
  | .int i => some i
  | _ => none

/-- `Value::as_bool`. -/
def Value.as_bool : Value → Option Bool
  | .boolean b => some b
  | _ => none

/-- `Value::as_table`. -/
def Value.as_table : Value → Option ConfigTable
  | .table t => some t
  | _ => none

/-- `Value::as_array`. -/
def Value.as_array : Value → Option (List Value)
  | .arr a => some a
  | _ => none

/-- `toml::map::Map::get`: first entry with the given key. -/
def tableGet (t : ConfigTable) (key : String) : Option Value :=
  (t.find? (fun p => p.1 == key)).map Prod.snd

/-- The error enumeration of `src/error.rs` (`ConfigError`). -/
inductive ConfigError where
  | Missing : String → ConfigError
  | WrongType : String → String → ConfigError
  | AssetFileUndefined : Nat → String → ConfigError
  | AssetFileWrongType : Nat → String → String → ConfigError
  | AssetFileNotFound : String → ConfigError
  | AssetGlobInvalid : Nat → String → ConfigError
  | AssetReadFailed : String → ConfigError
deriving DecidableEq

/-- The `FileInfo` record of `config.rs`: one validated asset entry. -/
structure FileInfo where
  source : String
  dest : String
  user : Option String
  group : Option String
  mode : Option Nat
  config : Bool
  doc : Bool
deriving DecidableEq

/-- One step of octal accumulation for `usize::from_str_radix(s, 8)`. -/
def octAccum : Option Nat → Char → Option Nat
  | none, _ => none
  | some a, c =>
    if '0' ≤ c ∧ c ≤ '7' then some (a * 8 + (c.toNat - '0'.toNat)) else none

/-- `usize::from_str_radix(s, 8)` on a 64-bit target: an optional leading
`+`, then at least one digit in `0..=7`, value below `2 ^ 64`; anything
else (including overflow) is a parse error. -/
def from_str_radix8 (s : String) : Option Nat :=
  let cs := s.toList
  let cs := if cs.head? = some '+' then cs.tail else cs
  match cs with
  | [] => none
  | _ =>
    match cs.foldl octAccum (some 0) with
    | none => none
    | some n => if n < 18446744073709551616 then some n else none

/-- `_get_source` of `config.rs`. -/
def _get_source (t : ConfigTable) (idx : Nat) : Except ConfigError String :=
  match tableGet t "source" with
  | none => .error (.AssetFileUndefined idx "source")
  | some v =>
    match v.as_str with
    | none => .error (.AssetFileWrongType idx "source" "string")
    | some s => .ok s

/-- `_get_dest` of `config.rs`. -/
def _get_dest (t : ConfigTable) (idx : Nat) : Except ConfigError String :=
  match tableGet t "dest" with
  | none => .error (.AssetFileUndefined idx "dest")
  | some v =>
    match v.as_str with
    | none => .error (.AssetFileWrongType idx "dest" "string")
    | some s => .ok s

/-- `_get_user` of `config.rs`. -/
def _get_user (t : ConfigTable) (idx : Nat) : Except ConfigError (Option String) :=
  match tableGet t "user" with
  | none => .ok none
  | some v =>
    match v.as_str with
    | none => .error (.AssetFileWrongType idx "user" "string")
    | some s => .ok (some s)

/-- `_get_group` of `config.rs`. -/
def _get_group (t : ConfigTable) (idx : Nat) : Except ConfigError (Option String) :=
  match tableGet t "group" with
  | none => .ok none
  | some v =>
    match v.as_str with
    | none => .error (.AssetFileWrongType idx "group" "string")
    | some s => .ok (some s)

/-- `str::ends_with('/')` with a single-character pattern: the string's
last character is `/`. -/
def ends_with_slash (s : String) : Bool := s.toList.getLast? == some '/'

/-- `_get_mode` of `config.rs`: parse the octal string, then keep the given
file-type bits when nonzero, otherwise synthesize directory or regular-file
type bits from a trailing `/` in `source`. -/
def _get_mode (t : ConfigTable) (source : String) (idx : Nat) :
    Except ConfigError (Option Nat) :=
  match tableGet t "mode" with
  | none => .ok none
  | some v =>
    match v.as_str with
    | none => .error (.AssetFileWrongType idx "mode" "string")
    | some s =>
      match from_str_radix8 s with
      | none => .error (.AssetFileWrongType idx "mode" "oct-string")
      | some mode =>
        let file_mode : Option Nat :=
          if mode &&& 0o170000 ≠ 0 then none
          else if ends_with_slash source then some 0o040000
          else some 0o100000
        .ok (some (file_mode.getD 0 ||| mode))

/-- `_get_config` of `config.rs`. -/
def _get_config (t : ConfigTable) (idx : Nat) : Except ConfigError Bool :=
  match tableGet t "config" with
  | none => .ok false
  | some v =>
    match v.as_bool with
    | none => .error (.AssetFileWrongType idx "config" "bool")
    | some b => .ok b

/-- `_get_doc` of `config.rs`. -/
def _get_doc (t : ConfigTable) (idx : Nat) : Except ConfigError Bool :=
  match tableGet t "doc" with
  | none => .ok false
  | some v =>
    match v.as_bool with
    | none => .error (.AssetFileWrongType idx "doc" "bool")
    | some b => .ok b

/-- `_handle_file` of `config.rs`: each `?` propagates the first error. -/
def _handle_file (t : ConfigTable) (idx : Nat) : Except ConfigError FileInfo :=
  match _get_source t idx with
  | .error e => .error e
  | .ok source =>
    match _get_dest t idx with
    | .error e => .error e
    | .ok dest =>
      match _get_user t idx with
      | .error e => .error e
      | .ok user =>
        match _get_group t idx with
        | .error e => .error e
        | .ok group =>
          match _get_mode t source idx with
          | .error e => .error e
          | .ok mode =>
            match _get_config t idx with
            | .error e => .error e
            | .ok config =>
              match _get_doc t idx with
              | .error e => .error e
              | .ok doc =>
                .ok { source, dest, user, group, mode, config, doc }

/-- The asset loop in `Config::files`: each array element must be a table
(else `AssetFileUndefined(idx, "source")`), each table is handled by
`_handle_file`, and the first error aborts the whole loop. -/
def filesLoop : List Value → Nat → Except ConfigError (List FileInfo)
  | [], _ => .ok []
  | v :: rest, idx =>
    match v.as_table with
    | none => .error (.AssetFileUndefined idx "source")
    | some t =>
      match _handle_file t idx with
      | .error e => .error e
      | .ok info =>
        match filesLoop rest (idx + 1) with
        | .error e => .error e
        | .ok more => .ok (info :: more)

/-- The `package` fields of the `cargo_toml::Manifest` read by `config.rs`. -/
structure Package where
  name : String
  version : String
  license : Option String
  description : Option String
  metadata : Option Value

/-- The manifest as read by `config.rs`: an optional `package` table. -/
structure Manifest where
  package : Option Package

/-- `Config::metadata`: locate `package.metadata.generate-rpm` as a table,
searching metadata's direct children by a linear scan with exact name match. -/
def metadata (m : Manifest) : Except ConfigError ConfigTable :=
  match m.package with
  | none => .error (.Missing "package")
  | some pkg =>
    match pkg.metadata with
    | none => .error (.Missing "package.metadata")
    | some mv =>
      match mv.as_table with
      | none => .error (.WrongType "package.metadata" "table")
      | some t =>
        match t.find? (fun p => p.1 == "generate-rpm") with
        | none => .error (.Missing "package.metadata.generate-rpm")
        | some p =>
          match p.2.as_table with
          | none => .error (.WrongType "package.metadata.generate-rpm" "table")
          | some t2 => .ok t2

/-- `Config::files`: require `assets` to be present and an array, then run
the asset loop from index 0. -/
def files (m : Manifest) : Except ConfigError (List FileInfo) :=
  match metadata m with
  | .error e => .error e
  | .ok md =>
    match tableGet md "assets" with
    | none => .error (.Missing "package.metadata.generate-rpm.assets")
    | some v =>
      match v.as_array with
      | none => .error (.WrongType "package.metadata.generate-rpm.assets" "array")
      | some assets => filesLoop assets 0

/-- The `get_str_from_metadata!` macro of `Config::create_rpm_builder`. -/
def get_str_from_metadata (md : ConfigTable) (name : String) :
    Except ConfigError (Option String) :=
  match tableGet md name with
  | none => .ok none
  | some v =>
    match v.as_str with
    | none => .error (.WrongType ("package.metadata.generate-rpm." ++ name) "string")
    | some s => .ok (some s)

/-- The `get_i64_from_metadata!` macro of `Config::create_rpm_builder`. -/
def get_i64_from_metadata (md : ConfigTable) (name : String) :
    Except ConfigError (Option Int) :=
  match tableGet md name with
  | none => .ok none
  | some v =>
    match v.as_integer with
    | none => .error (.WrongType ("package.metadata.generate-rpm." ++ name) "integer")
    | some i => .ok (some i)

/-- Name resolution in `Config::create_rpm_builder`: metadata `name`, else
the manifest package name. -/
def resolveName (md : ConfigTable) (pkg : Package) : Except ConfigError String :=
  match get_str_from_metadata md "name" with
  | .error e => .error e
  | .ok o => .ok (o.getD pkg.name)

/-- Version resolution in `Config::create_rpm_builder`: metadata `version`,
else the manifest package version. -/
def resolveVersion (md : ConfigTable) (pkg : Package) : Except ConfigError String :=
  match get_str_from_metadata md "version" with
  | .error e => .error e
  | .ok o => .ok (o.getD pkg.version)

/-- License resolution in `Config::create_rpm_builder` (lines 117-122):
the metadata getter runs first, then `unwrap_or`'s argument is evaluated
eagerly, so its `?` on a missing `pkg.license` propagates
`Missing("package.license")` even when metadata supplied a license string;
only with the package license present does the metadata value win over it. -/
def resolveLicense (md : ConfigTable) (pkg : Package) : Except ConfigError String :=
  match get_str_from_metadata md "license" with
  | .error e => .error e
  | .ok o =>
    match pkg.license with
    | none => .error (.Missing "package.license")
    | some l => .ok (o.getD l)

/-- Description resolution in `Config::create_rpm_builder` (lines 133-138):
like the license, `unwrap_or`'s argument is evaluated eagerly, so a missing
`pkg.description` propagates `Missing("package.description")` even when
metadata supplied a `summary` string. -/
def resolveDescription (md : ConfigTable) (pkg : Package) : Except ConfigError String :=
  match get_str_from_metadata md "summary" with
  | .error e => .error e
  | .ok o =>
    match pkg.description with
    | none => .error (.Missing "package.description")
    | some d => .ok (o.getD d)

/-- Architecture resolution in `Config::create_rpm_builder`: a caller
override wins, else the host architecture name (`std::env::consts::ARCH`,
taken here as a parameter) mapped through the fixed substitution table. -/
def resolveArch (target_arch : Option String) (hostArch : String) : String :=
  target_arch.getD
    (match hostArch with
      | "x86" => "i586"
      | "arm" => "armhfp"
      | "powerpc" => "ppc"
      | "powerpc64" => "ppc64"
      | _ => hostArch)

/-- The on-disk lookup in `Config::create_rpm_builder`: the candidate array
`[source, parent.join(source)]` searched for the first existing path, with
filesystem existence and path joining taken as parameters. -/
def locateOnDisk (onDisk : String → Bool) (join : String → String → String)
    (parent : String) (source : String) : Except ConfigError String :=
  match [source, join parent source].find? onDisk with
  | none => .error (.AssetFileNotFound source)
  | some p => .ok p

/-- The Rust `as u16` cast on an `i64`: keep the low 16 bits, read unsigned. -/
def u16_cast (r : Int) : Nat := (r % 65536).toNat

/-- The Rust `as i32` cast on an `i64`: keep the low 32 bits, read as a
two's-complement signed 32-bit value. -/
def i32_cast (e : Int) : Int :=
  if e % 4294967296 < 2147483648 then e % 4294967296
  else e % 4294967296 - 4294967296

/-- The release and epoch tags applied to the builder. -/
structure BuilderScalars where
  release : Option Nat
  epoch : Option Int
deriving DecidableEq

/-- The release/epoch application of `Config::create_rpm_builder` (lines
157-162): an absent key applies nothing; a present integer is applied
through the `as u16` / `as i32` casts. -/
def applyReleaseEpoch (md : ConfigTable) : Except ConfigError BuilderScalars :=
  match get_i64_from_metadata md "release" with
  | .error e => .error e
  | .ok r =>
    match get_i64_from_metadata md "epoch" with
    | .error e => .error e
    | .ok e => .ok { release := r.map u16_cast, epoch := e.map i32_cast }

/-- Modelled from the spec: the spec asserts per-entry field resolution is
order-insensitive across fields. This is the same seven getters as
`_handle_file`, with `config` examined before `dest`, used to compare the
observable error across examination orders. -/
def handle_file_config_first (t : ConfigTable) (idx : Nat) :
    Except ConfigError FileInfo :=
  match _get_source t idx with
  | .error e => .error e
  | .ok source =>
    match _get_config t idx with
    | .error e => .error e
    | .ok config =>
      match _get_dest t idx with
      | .error e => .error e
      | .ok dest =>
        match _get_user t idx with
        | .error e => .error e
        | .ok user =>
          match _get_group t idx with
          | .error e => .error e
          | .ok group =>
            match _get_mode t source idx with
            | .error e => .error e
            | .ok mode =>
              match _get_doc t idx with
              | .error e => .error e
              | .ok doc =>
                .ok { source, dest, user, group, mode, config, doc }

/-! ## Helper lemmas -/

theorem as_table_eq_of (v : Value) (tb : ConfigTable) (h : v.as_table = some tb) :
    v = Value.table tb := by
  cases v <;> simp_all [Value.as_table]

theorem get_source_ok_iff (t : ConfigTable) (idx : Nat) (s : String) :
    _get_source t idx = .ok s ↔ tableGet t "source" = some (Value.str s) := by
  unfold _get_source
  cases hg : tableGet t "source" with
  | none => simp
  | some v => cases v <;> simp [Value.as_str]

theorem get_dest_ok_iff (t : ConfigTable) (idx : Nat) (s : String) :
    _get_dest t idx = .ok s ↔ tableGet t "dest" = some (Value.str s) := by
  unfold _get_dest
  cases hg : tableGet t "dest" with
  | none => simp
  | some v => cases v <;> simp [Value.as_str]

theorem handle_file_ok_iff (t : ConfigTable) (idx : Nat) (f : FileInfo) :
    _handle_file t idx = .ok f ↔
      _get_source t idx = .ok f.source ∧ _get_dest t idx = .ok f.dest ∧
      _get_user t idx = .ok f.user ∧ _get_group t idx = .ok f.group ∧
      _get_mode t f.source idx = .ok f.mode ∧ _get_config t idx = .ok f.config ∧
      _get_doc t idx = .ok f.doc := by
  constructor
  · intro h
    unfold _handle_file at h
    cases h1 : _get_source t idx with
    | error e => simp [h1] at h
    | ok s =>
    simp only [h1] at h
    cases h2 : _get_dest t idx with
    | error e => simp [h2] at h
    | ok d =>
    simp only [h2] at h
    cases h3 : _get_user t idx with
    | error e => simp [h3] at h
    | ok u =>
    simp only [h3] at h
    cases h4 : _get_group t idx with
    | error e => simp [h4] at h
    | ok g =>
    simp only [h4] at h
    cases h5 : _get_mode t s idx with
    | error e => simp [h5] at h
    | ok mo =>
    simp only [h5] at h
    cases h6 : _get_config t idx with
    | error e => simp [h6] at h
    | ok c =>
    simp only [h6] at h
    cases h7 : _get_doc t idx with
    | error e => simp [h7] at h
    | ok dc =>
    simp only [h7] at h
    injection h with h
    subst h
    exact ⟨rfl, rfl, rfl, rfl, h5, rfl, rfl⟩
  · rintro ⟨h1, h2, h3, h4, h5, h6, h7⟩
    unfold _handle_file
    simp only [h1, h2, h3, h4, h5, h6, h7]

/-! ## Claim theorems -/

/-- C1: for an asset entry whose `mode` is a string parsing as octal `m`,
the resolved mode is `m` itself when `m`'s file-type bits (`m &&& 0o170000`)
are nonzero, `m ||| 0o040000` when the entry's `source` ends with `/`, and
`m ||| 0o100000` otherwise. -/
theorem c1_mode_type_bits (t : ConfigTable) (src : String) (idx : Nat)
    (s : String) (m : Nat)
    (hget : tableGet t "mode" = some (Value.str s))
    (hparse : from_str_radix8 s = some m) :
    _get_mode t src idx = .ok (some (
      if m &&& 0o170000 ≠ 0 then m
      else if ends_with_slash src then m ||| 0o040000
      else m ||| 0o100000)) := by
  unfold _get_mode
  simp only [hget, Value.as_str, hparse]
  by_cases h1 : m &&& 0o170000 ≠ 0
  · simp [h1]
  · by_cases h2 : ends_with_slash src
    · simp [h1, h2, Nat.lor_comm]
    · simp [h1, h2, Nat.lor_comm]

/-- C1 witness: `mode = "644"` with `source = "a/b.txt"` resolves to
`0o100644`, with `source = "a/b/"` to `0o040644`, and a mode already
carrying type bits (`"120644"`) is kept verbatim. -/
theorem c1_witness :
    from_str_radix8 "644" = some 0o644 ∧
    _get_mode [("mode", Value.str "644")] "a/b.txt" 0 = .ok (some 0o100644) ∧
    _get_mode [("mode", Value.str "644")] "a/b/" 0 = .ok (some 0o040644) ∧
    _get_mode [("mode", Value.str "120644")] "a/b.txt" 0 = .ok (some 0o120644) := by
  refine ⟨rfl, ?_, ?_, ?_⟩
  · rw [c1_mode_type_bits [("mode", Value.str "644")] "a/b.txt" 0 "644" 0o644 rfl rfl]
    exact rfl
  · rw [c1_mode_type_bits [("mode", Value.str "644")] "a/b/" 0 "644" 0o644 rfl rfl]
    exact rfl
  · rw [c1_mode_type_bits [("mode", Value.str "120644")] "a/b.txt" 0 "120644" 0o120644 rfl rfl]
    exact rfl

/-- C2 counterexample: field examination is not order-insensitive. On the
entry `{ source = "s", config = 1 }` (missing `dest`, ill-typed `config`)
the resolver reports the `dest` error, while the same seven getters
examined with `config` before `dest` report the `config` error; the two
observable errors differ, and the `config` failure did not prevent the
`dest` check from deciding the outcome. -/
theorem c2_counterexample :
    _handle_file [("source", Value.str "s"), ("config", Value.int 1)] 0
      = .error (.AssetFileUndefined 0 "dest") ∧
    handle_file_config_first [("source", Value.str "s"), ("config", Value.int 1)] 0
      = .error (.AssetFileWrongType 0 "config" "bool") ∧
    ConfigError.AssetFileUndefined 0 "dest" ≠
      ConfigError.AssetFileWrongType 0 "config" "bool" ∧
    _handle_file [("config", Value.int 1)] 0
      = .error (.AssetFileUndefined 0 "source") :=
  ⟨rfl, rfl, by decide, rfl⟩

/-- C2 (amended): all seven fields are checked, with exactly the getters'
results, on every entry that resolves successfully; an entry resolves iff
every field getter succeeds. (On a failing entry resolution is
order-sensitive: the first failing field in the fixed order decides the
error, as the counterexample shows.) -/
theorem c2_all_fields_checked (t : ConfigTable) (idx : Nat) (f : FileInfo) :
    _handle_file t idx = .ok f ↔
      _get_source t idx = .ok f.source ∧ _get_dest t idx = .ok f.dest ∧
      _get_user t idx = .ok f.user ∧ _get_group t idx = .ok f.group ∧
      _get_mode t f.source idx = .ok f.mode ∧ _get_config t idx = .ok f.config ∧
      _get_doc t idx = .ok f.doc :=
  handle_file_ok_iff t idx f

/-- C2 witness: a concrete entry resolves with every field produced by its
getter. -/
theorem c2_witness :
    _handle_file [("source", Value.str "a"), ("dest", Value.str "b")] 0
      = .ok { source := "a", dest := "b", user := none, group := none,
              mode := none, config := false, doc := false } :=
  (c2_all_fields_checked [("source", Value.str "a"), ("dest", Value.str "b")] 0
    { source := "a", dest := "b", user := none, group := none,
      mode := none, config := false, doc := false }).mpr
    ⟨rfl, rfl, rfl, rfl, rfl, rfl, rfl⟩

/-- C3 counterexample: `source` and `dest` need not be non-empty. The entry
`{ source = "", dest = "" }` resolves successfully to a File Entry whose
`source` and `dest` are the empty string. -/
theorem c3_counterexample :
    filesLoop [Value.table [("source", Value.str ""), ("dest", Value.str "")]] 0
      = .ok [{ source := "", dest := "", user := none, group := none,
               mode := none, config := false, doc := false }] ∧
    ("" : String).length = 0 :=
  ⟨rfl, rfl⟩

/-- C3 (amended): whenever asset resolution succeeds, every resulting File
Entry's `source` and `dest` are present string values taken from its asset
table (possibly empty), and each entry produced is complete: its fields are
the table's resolved values, never a partial record. -/
theorem c3_source_dest_present (vs : List Value) (k : Nat) (fs : List FileInfo)
    (h : filesLoop vs k = .ok fs) (f : FileInfo) (hf : f ∈ fs) :
    ∃ tb, Value.table tb ∈ vs ∧
      tableGet tb "source" = some (Value.str f.source) ∧
      tableGet tb "dest" = some (Value.str f.dest) := by
  induction vs generalizing k fs with
  | nil =>
    simp only [filesLoop, Except.ok.injEq] at h
    subst h
    cases hf
  | cons v rest ih =>
    unfold filesLoop at h
    cases hv : v.as_table with
    | none => simp [hv] at h
    | some tb =>
    simp only [hv] at h
    cases hh : _handle_file tb k with
    | error e => simp [hh] at h
    | ok info =>
    simp only [hh] at h
    cases hr : filesLoop rest (k + 1) with
    | error e => simp [hr] at h
    | ok more =>
    simp only [hr, Except.ok.injEq] at h
    subst h
    rcases List.mem_cons.mp hf with hfi | hfm
    · subst hfi
      obtain ⟨h1, h2, -, -, -, -, -⟩ := (handle_file_ok_iff tb k f).mp hh
      exact ⟨tb, by rw [as_table_eq_of v tb hv] at *; exact List.mem_cons_self _ _,
        (get_source_ok_iff tb k f.source).mp h1, (get_dest_ok_iff tb k f.dest).mp h2⟩
    · obtain ⟨tb2, hmem, hs, hd⟩ := ih (k + 1) more hr hfm
      exact ⟨tb2, List.mem_cons_of_mem _ hmem, hs, hd⟩

/-- C3 witness: the amended statement applied to a concrete resolved asset
array. -/
theorem c3_witness :
    ∃ tb, Value.table tb ∈ [Value.table [("source", Value.str "a"), ("dest", Value.str "b")]] ∧
      tableGet tb "source" = some (Value.str "a") ∧
      tableGet tb "dest" = some (Value.str "b") :=
  c3_source_dest_present
    [Value.table [("source", Value.str "a"), ("dest", Value.str "b")]] 0
    [{ source := "a", dest := "b", user := none, group := none,
       mode := none, config := false, doc := false }]
    rfl
    { source := "a", dest := "b", user := none, group := none,
      mode := none, config := false, doc := false }
    (List.mem_singleton.mpr rfl)

theorem filesLoop_append (pre l : List Value) (k : Nat) :
    filesLoop (pre ++ l) k =
      match filesLoop pre k with
      | .error e => .error e
      | .ok fs =>
        match filesLoop l (k + pre.length) with
        | .error e => .error e
        | .ok more => .ok (fs ++ more) := by
  induction pre generalizing k with
  | nil =>
    simp only [List.nil_append, List.length_nil, Nat.add_zero, filesLoop]
    cases filesLoop l k <;> simp
  | cons v rest ih =>
    simp only [List.cons_append, filesLoop, List.length_cons, List.append_eq]
    rw [ih (k + 1)]
    cases hv : v.as_table with
    | none => simp
    | some tb =>
    cases hh : _handle_file tb k with
    | error e => simp [hh]
    | ok info =>
    cases hr : filesLoop rest (k + 1) with
    | error e => simp [hh]
    | ok fs =>
    have harith : k + 1 + rest.length = k + (rest.length + 1) := by omega
    rw [harith]
    cases hl : filesLoop l (k + (rest.length + 1)) with
    | error e => simp [hh]
    | ok more => simp [hh]

/-- C4 counterexample: an entry that is a table missing `dest` does not
always fail with the `dest` error. The empty table (first invalid entry,
missing `dest`) fails with `AssetFileUndefined(0, "source")`, because
`source` is examined first. -/
theorem c4_counterexample :
    filesLoop [Value.table []] 0 = .error (.AssetFileUndefined 0 "source") ∧
    ConfigError.AssetFileUndefined 0 "source" ≠
      ConfigError.AssetFileUndefined 0 "dest" :=
  ⟨rfl, by decide⟩

/-- C4 (amended): when all assets before index `idx` resolve, and the entry
at `idx` is a table with a string `source` but no `dest` key, resolution of
the whole array fails with `AssetFileUndefined(idx, "dest")`, no File Entry
sequence is produced, and the result does not depend on the assets after
`idx` (fail-fast: only the first error in array order is surfaced). -/
theorem c4_fail_fast_missing_dest (pre rest : List Value) (t : ConfigTable)
    (s : String) (fs : List FileInfo)
    (hpre : filesLoop pre 0 = .ok fs)
    (hsrc : tableGet t "source" = some (Value.str s))
    (hdest : tableGet t "dest" = none) :
    filesLoop (pre ++ Value.table t :: rest) 0
      = .error (.AssetFileUndefined pre.length "dest") := by
  have h1 : _handle_file t pre.length = .error (.AssetFileUndefined pre.length "dest") := by
    unfold _handle_file _get_source _get_dest
    simp only [hsrc, hdest, Value.as_str]
  rw [filesLoop_append, hpre]
  simp only [Nat.zero_add, filesLoop, Value.as_table, h1]

/-- C4 witness: a valid first asset, then a table with `source` only, then
arbitrary garbage; the array fails with the `dest` error at index 1. -/
theorem c4_witness :
    filesLoop [Value.table [("source", Value.str "a"), ("dest", Value.str "b")],
               Value.table [("source", Value.str "c")],
               Value.int 3] 0
      = .error (.AssetFileUndefined 1 "dest") :=
  c4_fail_fast_missing_dest
    [Value.table [("source", Value.str "a"), ("dest", Value.str "b")]]
    [Value.int 3]
    [("source", Value.str "c")] "c"
    [{ source := "a", dest := "b", user := none, group := none,
       mode := none, config := false, doc := false }]
    rfl rfl rfl

/-- C5: metadata location fails with exactly the documented errors:
`Missing("package")` without a package table; `Missing("package.metadata")`
or `WrongType("package.metadata", "table")` when metadata is absent or not
a table; `Missing("package.metadata.generate-rpm")` when no direct child of
metadata (searched by linear scan, exact name) is `generate-rpm`;
`WrongType(..., "table")` when that child is not a table; no other error is
produced by metadata location; and asset resolution fails with
`Missing(...assets)` or `WrongType(...assets, "array")` when `assets` is
absent or not an array. -/
theorem c5_error_taxonomy (m : Manifest) :
    (m.package = none → metadata m = .error (.Missing "package")) ∧
    (∀ pkg, m.package = some pkg → pkg.metadata = none →
      metadata m = .error (.Missing "package.metadata")) ∧
    (∀ pkg v, m.package = some pkg → pkg.metadata = some v → v.as_table = none →
      metadata m = .error (.WrongType "package.metadata" "table")) ∧
    (∀ pkg v t, m.package = some pkg → pkg.metadata = some v → v.as_table = some t →
      (∀ p ∈ t, p.1 ≠ "generate-rpm") →
      metadata m = .error (.Missing "package.metadata.generate-rpm")) ∧
    (∀ pkg v t p, m.package = some pkg → pkg.metadata = some v → v.as_table = some t →
      t.find? (fun q => q.1 == "generate-rpm") = some p → p.2.as_table = none →
      metadata m = .error (.WrongType "package.metadata.generate-rpm" "table")) ∧
    (∀ e, metadata m = .error e →
      e = .Missing "package" ∨ e = .Missing "package.metadata" ∨
      e = .WrongType "package.metadata" "table" ∨
      e = .Missing "package.metadata.generate-rpm" ∨
      e = .WrongType "package.metadata.generate-rpm" "table") ∧
    (∀ md, metadata m = .ok md → tableGet md "assets" = none →
      files m = .error (.Missing "package.metadata.generate-rpm.assets")) ∧
    (∀ md v, metadata m = .ok md → tableGet md "assets" = some v → v.as_array = none →
      files m = .error (.WrongType "package.metadata.generate-rpm.assets" "array")) := by
  refine ⟨?_, ?_, ?_, ?_, ?_, ?_, ?_, ?_⟩
  · intro h; simp [metadata, h]
  · intro pkg h1 h2; simp [metadata, h1, h2]
  · intro pkg v h1 h2 h3; simp [metadata, h1, h2, h3]
  · intro pkg v t h1 h2 h3 h4
    have hfind : t.find? (fun q => q.1 == "generate-rpm") = none :=
      List.find?_eq_none.mpr (fun p hp => by simpa using h4 p hp)
    simp [metadata, h1, h2, h3, hfind]
  · intro pkg v t p h1 h2 h3 h4 h5
    simp [metadata, h1, h2, h3, h4, h5]
  · intro e he
    unfold metadata at he
    cases h1 : m.package with
    | none => simp only [h1] at he; left; exact (Except.error.inj he).symm
    | some pkg =>
    simp only [h1] at he
    cases h2 : pkg.metadata with
    | none => simp only [h2] at he; right; left; exact (Except.error.inj he).symm
    | some v =>
    simp only [h2] at he
    cases h3 : v.as_table with
    | none => simp only [h3] at he; right; right; left; exact (Except.error.inj he).symm
    | some t =>
    simp only [h3] at he
    cases h4 : t.find? (fun q => q.1 == "generate-rpm") with
    | none => simp only [h4] at he; right; right; right; left; exact (Except.error.inj he).symm
    | some p =>
    simp only [h4] at he
    cases h5 : p.2.as_table with
    | none =>
      simp only [h5] at he
      right; right; right; right; exact (Except.error.inj he).symm
    | some t2 => simp only [h5] at he; exact absurd he (by simp)
  · intro md hmd hassets
    unfold files
    simp only [hmd, hassets]
  · intro md v hmd hassets hnarr
    unfold files
    simp only [hmd, hassets, hnarr]

/-- C5 witness: a manifest without a package table fails with
`Missing("package")`. -/
theorem c5_witness :
    metadata { package := none } = .error (.Missing "package") :=
  (c5_error_taxonomy { package := none }).1 rfl

/-- C6 counterexample: the metadata value is not always used when its key
is present. With `pkg.license` absent, `unwrap_or`'s eagerly evaluated
argument fails with `Missing("package.license")` even though the metadata
table supplies `license = "MIT"`; the same happens for `summary` with
`pkg.description` absent. -/
theorem c6_counterexample :
    resolveLicense [("license", Value.str "MIT")]
      { name := "p", version := "1", license := none, description := some "d",
        metadata := none } = .error (.Missing "package.license") ∧
    (Except.error (ConfigError.Missing "package.license") :
      Except ConfigError String) ≠ .ok "MIT" ∧
    resolveDescription [("summary", Value.str "S")]
      { name := "p", version := "1", license := some "MIT", description := none,
        metadata := none } = .error (.Missing "package.description") ∧
    (Except.error (ConfigError.Missing "package.description") :
      Except ConfigError String) ≠ .ok "S" :=
  ⟨rfl, by simp, rfl, by simp⟩

/-- C6 (amended): name and version use the metadata value when present,
else the package field. For license and summary/description the package
field is evaluated eagerly before the fallback choice: when `pkg.license`
(resp. `pkg.description`) is absent, resolution fails with
`Missing("package.license")` (resp. `Missing("package.description")`) even
if the metadata key is present; when the package field is present, the
metadata value is used if its key is present, else the package field. -/
theorem c6_scalar_fallback (md : ConfigTable) (pkg : Package) :
    (∀ s, tableGet md "name" = some (Value.str s) → resolveName md pkg = .ok s) ∧
    (tableGet md "name" = none → resolveName md pkg = .ok pkg.name) ∧
    (∀ s, tableGet md "version" = some (Value.str s) → resolveVersion md pkg = .ok s) ∧
    (tableGet md "version" = none → resolveVersion md pkg = .ok pkg.version) ∧
    (∀ s l, tableGet md "license" = some (Value.str s) → pkg.license = some l →
      resolveLicense md pkg = .ok s) ∧
    (∀ l, tableGet md "license" = none → pkg.license = some l →
      resolveLicense md pkg = .ok l) ∧
    (∀ s, tableGet md "license" = some (Value.str s) → pkg.license = none →
      resolveLicense md pkg = .error (.Missing "package.license")) ∧
    (tableGet md "license" = none → pkg.license = none →
      resolveLicense md pkg = .error (.Missing "package.license")) ∧
    (∀ s d, tableGet md "summary" = some (Value.str s) → pkg.description = some d →
      resolveDescription md pkg = .ok s) ∧
    (∀ d, tableGet md "summary" = none → pkg.description = some d →
      resolveDescription md pkg = .ok d) ∧
    (∀ s, tableGet md "summary" = some (Value.str s) → pkg.description = none →
      resolveDescription md pkg = .error (.Missing "package.description")) ∧
    (tableGet md "summary" = none → pkg.description = none →
      resolveDescription md pkg = .error (.Missing "package.description")) := by
  refine ⟨?_, ?_, ?_, ?_, ?_, ?_, ?_, ?_, ?_, ?_, ?_, ?_⟩
  · intro s h; simp [resolveName, get_str_from_metadata, h, Value.as_str]
  · intro h; simp [resolveName, get_str_from_metadata, h]
  · intro s h; simp [resolveVersion, get_str_from_metadata, h, Value.as_str]
  · intro h; simp [resolveVersion, get_str_from_metadata, h]
  · intro s l h1 h2; simp [resolveLicense, get_str_from_metadata, h1, h2, Value.as_str]
  · intro l h1 h2; simp [resolveLicense, get_str_from_metadata, h1, h2]
  · intro s h1 h2; simp [resolveLicense, get_str_from_metadata, h1, h2, Value.as_str]
  · intro h1 h2; simp [resolveLicense, get_str_from_metadata, h1, h2]
  · intro s d h1 h2
    simp [resolveDescription, get_str_from_metadata, h1, h2, Value.as_str]
  · intro d h1 h2; simp [resolveDescription, get_str_from_metadata, h1, h2]
  · intro s h1 h2
    simp [resolveDescription, get_str_from_metadata, h1, h2, Value.as_str]
  · intro h1 h2; simp [resolveDescription, get_str_from_metadata, h1, h2]

/-- C6 witness: metadata name override; metadata license override with the
package license present; package-license fallback; and the two `Missing`
errors when the package field is absent. -/
theorem c6_witness :
    resolveName [("name", Value.str "meta-name")]
      { name := "pkg-name", version := "1.0", license := none, description := none,
        metadata := none } = .ok "meta-name" ∧
    resolveLicense [("license", Value.str "Apache-2.0")]
      { name := "pkg-name", version := "1.0", license := some "MIT",
        description := none, metadata := none } = .ok "Apache-2.0" ∧
    resolveLicense []
      { name := "pkg-name", version := "1.0", license := some "MIT", description := none,
        metadata := none } = .ok "MIT" ∧
    resolveLicense []
      { name := "pkg-name", version := "1.0", license := none, description := none,
        metadata := none } = .error (.Missing "package.license") ∧
    resolveDescription []
      { name := "pkg-name", version := "1.0", license := none, description := none,
        metadata := none } = .error (.Missing "package.description") := by
  refine ⟨?_, ?_, ?_, ?_, ?_⟩
  · exact (c6_scalar_fallback [("name", Value.str "meta-name")] _).1 "meta-name" rfl
  · exact (c6_scalar_fallback [("license", Value.str "Apache-2.0")] _).2.2.2.2.1
      "Apache-2.0" "MIT" rfl rfl
  · exact (c6_scalar_fallback [] _).2.2.2.2.2.1 "MIT" rfl rfl
  · exact (c6_scalar_fallback [] _).2.2.2.2.2.2.2.1 rfl rfl
  · exact (c6_scalar_fallback [] _).2.2.2.2.2.2.2.2.2.2.2 rfl rfl

/-- C7: the on-disk location tries exactly two candidates in order, the
source as given (relative to the working directory) then the source joined
onto the manifest's directory; the first existing candidate wins, and when
neither exists the build fails with `AssetFileNotFound(source)`. -/
theorem c7_search_path (onDisk : String → Bool) (join : String → String → String)
    (parent source : String) :
    locateOnDisk onDisk join parent source =
      if onDisk source then .ok source
      else if onDisk (join parent source) then .ok (join parent source)
      else .error (.AssetFileNotFound source) := by
  unfold locateOnDisk
  cases h1 : onDisk source <;> cases h2 : onDisk (join parent source) <;>
    simp [List.find?, h1, h2]

/-- C8: an explicit target-architecture override is used verbatim; without
one, the host architecture is mapped through the fixed substitution table
x86→i586, arm→armhfp, powerpc→ppc, powerpc64→ppc64 and otherwise kept
unchanged. -/
theorem c8_arch_resolution (hostArch : String) :
    (∀ a, resolveArch (some a) hostArch = a) ∧
    resolveArch none "x86" = "i586" ∧
    resolveArch none "arm" = "armhfp" ∧
    resolveArch none "powerpc" = "ppc" ∧
    resolveArch none "powerpc64" = "ppc64" ∧
    (hostArch ≠ "x86" → hostArch ≠ "arm" → hostArch ≠ "powerpc" →
      hostArch ≠ "powerpc64" → resolveArch none hostArch = hostArch) := by
  refine ⟨fun a => rfl, rfl, rfl, rfl, rfl, fun h1 h2 h3 h4 => ?_⟩
  unfold resolveArch
  simp only [Option.getD_none]

/-- C8 witness: override `"noarch"` wins on an x86 host; no override on an
x86 host yields `"i586"`; an unmapped host architecture passes through. -/
theorem c8_witness :
    resolveArch (some "noarch") "x86" = "noarch" ∧
    resolveArch none "x86" = "i586" ∧
    resolveArch none "riscv64" = "riscv64" := by
  refine ⟨(c8_arch_resolution "x86").1 "noarch", (c8_arch_resolution "x86").2.1, ?_⟩
  exact (c8_arch_resolution "riscv64").2.2.2.2.2
    (by decide) (by decide) (by decide) (by decide)

/-- C9: present integer release/epoch keys are applied through the narrow
casts with no range validation: the applied release is the 16-bit unsigned
reduction of `r` and the applied epoch is the 32-bit two's-complement
reinterpretation of `e`; absent keys apply nothing. -/
theorem c9_release_epoch_casts (md : ConfigTable) :
    (∀ r e : Int, tableGet md "release" = some (Value.int r) →
      tableGet md "epoch" = some (Value.int e) →
      applyReleaseEpoch md = .ok { release := some (u16_cast r),
                                   epoch := some (i32_cast e) }) ∧
    (∀ r : Int, tableGet md "release" = some (Value.int r) →
      tableGet md "epoch" = none →
      applyReleaseEpoch md = .ok { release := some (u16_cast r), epoch := none }) ∧
    (∀ e : Int, tableGet md "release" = none →
      tableGet md "epoch" = some (Value.int e) →
      applyReleaseEpoch md = .ok { release := none, epoch := some (i32_cast e) }) ∧
    (tableGet md "release" = none → tableGet md "epoch" = none →
      applyReleaseEpoch md = .ok { release := none, epoch := none }) ∧
    (∀ r : Int, (u16_cast r : Int) = r % 65536 ∧ u16_cast r < 65536) ∧
    (∀ e : Int, i32_cast e % 4294967296 = e % 4294967296 ∧
      -2147483648 ≤ i32_cast e ∧ i32_cast e < 2147483648) := by
  refine ⟨?_, ?_, ?_, ?_, ?_, ?_⟩
  · intro r e h1 h2
    simp [applyReleaseEpoch, get_i64_from_metadata, h1, h2, Value.as_integer]
  · intro r h1 h2
    simp [applyReleaseEpoch, get_i64_from_metadata, h1, h2, Value.as_integer]
  · intro e h1 h2
    simp [applyReleaseEpoch, get_i64_from_metadata, h1, h2, Value.as_integer]
  · intro h1 h2
    simp [applyReleaseEpoch, get_i64_from_metadata, h1, h2]
  · intro r
    unfold u16_cast
    constructor <;> omega
  · intro e
    unfold i32_cast
    refine ⟨?_, ?_, ?_⟩ <;> split <;> omega

/-- C9 witness: release 70000 is applied as 4464 (70000 mod 2^16), epoch -1
is applied as -1, and an absent pair applies nothing. -/
theorem c9_witness :
    applyReleaseEpoch [("release", Value.int 70000), ("epoch", Value.int (-1))]
      = .ok { release := some 4464, epoch := some (-1) } ∧
    applyReleaseEpoch [] = .ok { release := none, epoch := none } := by
  constructor
  · rw [(c9_release_epoch_casts
      [("release", Value.int 70000), ("epoch", Value.int (-1))]).1 70000 (-1) rfl rfl]
    exact rfl
  · exact (c9_release_epoch_casts []).2.2.2.1 rfl rfl

/-- C10: fields of an asset entry are validated in the fixed order source,
dest, user, group, mode, config, doc and the entry's error is the error of
the first field in this order that fails; a table missing both `source` and
`dest` fails with `AssetFileUndefined(idx, "source")`, and a present
non-string `mode` (with the earlier fields valid) fails with
`AssetFileWrongType(idx, "mode", "string")`, not the oct-string error. -/
theorem c10_field_order (t : ConfigTable) (idx : Nat) :
    (∀ e, _get_source t idx = .error e → _handle_file t idx = .error e) ∧
    (∀ s e, _get_source t idx = .ok s → _get_dest t idx = .error e →
      _handle_file t idx = .error e) ∧
    (∀ s d e, _get_source t idx = .ok s → _get_dest t idx = .ok d →
      _get_user t idx = .error e → _handle_file t idx = .error e) ∧
    (∀ s d u e, _get_source t idx = .ok s → _get_dest t idx = .ok d →
      _get_user t idx = .ok u → _get_group t idx = .error e →
      _handle_file t idx = .error e) ∧
    (∀ s d u g e, _get_source t idx = .ok s → _get_dest t idx = .ok d →
      _get_user t idx = .ok u → _get_group t idx = .ok g →
      _get_mode t s idx = .error e → _handle_file t idx = .error e) ∧
    (∀ s d u g mo e, _get_source t idx = .ok s → _get_dest t idx = .ok d →
      _get_user t idx = .ok u → _get_group t idx = .ok g →
      _get_mode t s idx = .ok mo → _get_config t idx = .error e →
      _handle_file t idx = .error e) ∧
    (∀ s d u g mo c e, _get_source t idx = .ok s → _get_dest t idx = .ok d →
      _get_user t idx = .ok u → _get_group t idx = .ok g →
      _get_mode t s idx = .ok mo → _get_config t idx = .ok c →
      _get_doc t idx = .error e → _handle_file t idx = .error e) ∧
    (tableGet t "source" = none → tableGet t "dest" = none →
      _handle_file t idx = .error (.AssetFileUndefined idx "source")) ∧
    (∀ s d u g v, _get_source t idx = .ok s → _get_dest t idx = .ok d →
      _get_user t idx = .ok u → _get_group t idx = .ok g →
      tableGet t "mode" = some v → v.as_str = none →
      _handle_file t idx = .error (.AssetFileWrongType idx "mode" "string")) := by
  refine ⟨?_, ?_, ?_, ?_, ?_, ?_, ?_, ?_, ?_⟩
  · intro e h1; unfold _handle_file; simp only [h1]
  · intro s e h1 h2; unfold _handle_file; simp only [h1, h2]
  · intro s d e h1 h2 h3; unfold _handle_file; simp only [h1, h2, h3]
  · intro s d u e h1 h2 h3 h4; unfold _handle_file; simp only [h1, h2, h3, h4]
  · intro s d u g e h1 h2 h3 h4 h5; unfold _handle_file; simp only [h1, h2, h3, h4, h5]
  · intro s d u g mo e h1 h2 h3 h4 h5 h6
    unfold _handle_file; simp only [h1, h2, h3, h4, h5, h6]
  · intro s d u g mo c e h1 h2 h3 h4 h5 h6 h7
    unfold _handle_file; simp only [h1, h2, h3, h4, h5, h6, h7]
  · intro h1 h2
    unfold _handle_file _get_source
    simp only [h1]
  · intro s d u g v h1 h2 h3 h4 h5 h6
    have hmode : _get_mode t s idx = .error (.AssetFileWrongType idx "mode" "string") := by
      unfold _get_mode; simp only [h5, h6]
    unfold _handle_file
    simp only [h1, h2, h3, h4, hmode]

/-- C10 witness: the empty table fails on `source` first, and a valid
source/dest with an integer `mode` fails with the "string" error. -/
theorem c10_witness :
    _handle_file [] 0 = .error (.AssetFileUndefined 0 "source") ∧
    _handle_file [("source", Value.str "a"), ("dest", Value.str "b"),
                  ("mode", Value.int 644)] 0
      = .error (.AssetFileWrongType 0 "mode" "string") := by
  constructor
  · exact (c10_field_order [] 0).2.2.2.2.2.2.2.1 rfl rfl
  · exact (c10_field_order [("source", Value.str "a"), ("dest", Value.str "b"),
      ("mode", Value.int 644)] 0).2.2.2.2.2.2.2.2 "a" "b" none none (Value.int 644)
      rfl rfl rfl rfl rfl rfl

end CargoGenerateRpm
